import Mathlib

/-!
Verification development for the open-protocol device simulator.

The Rust sources are shallowly embedded: byte buffers become `List Nat`
(one entry per byte), machine integers become `Nat`/`Int` (the code never
relies on wrap-around; where a width bound matters it appears explicitly),
`&mut self` methods become state-passing functions, and fallible code
returns `Option`/`Except`.
-/

namespace OpenProtocol

/-! ### Decimal formatting, as produced by zero-padded numeric formatting

`format!` with a `:0w` specifier prints the full decimal representation of
a nonnegative integer, left-padded with ASCII zeros to a minimum width `w`
(numbers with more than `w` digits are printed in full, not truncated).
`digitsAux` is given fuel so that it is structurally recursive; `fuel = n`
always suffices since the argument is divided by ten at each step.
-/

def digitsAux : Nat → Nat → List Nat
  | 0, _ => []
  | fuel + 1, n => if n = 0 then [] else digitsAux fuel (n / 10) ++ [48 + n % 10]

/-- ASCII decimal representation of a natural number (most significant first). -/
def natToAscii (n : Nat) : List Nat :=
  if n = 0 then [48] else digitsAux n n

/-- `format!` with specifier `:0w` on a nonnegative integer: zero-pad to width `w`. -/
def fmt0 (w n : Nat) : List Nat :=
  List.replicate (w - (natToAscii n).length) 48 ++ natToAscii n

def isDigitByte (b : Nat) : Bool := 48 ≤ b && b ≤ 57

/-- Value of a list of ASCII digit bytes, most significant first. -/
def digitsVal (l : List Nat) : Nat := l.foldl (fun acc b => acc * 10 + (b - 48)) 0

/-- Parse an all-digit byte string as a number `< bound`. -/
def parseDigits (bound : Nat) (l : List Nat) : Option Nat :=
  if l.isEmpty then none
  else if l.all isDigitByte then
    if digitsVal l < bound then some (digitsVal l) else none
  else none

/-- Rust `str::parse::<uN>` applied to a byte slice, at the level of
success/failure and value: an optional leading ASCII plus sign (43) followed
by one or more ASCII digits, whose value must fit the type (`bound = 2^N`).
A byte slice that is not valid UTF-8 necessarily contains a byte outside the
digit/plus range, so the preceding `str::from_utf8` check and the numeric
parse are together faithfully captured by this single function. -/
def rustParseUInt (bound : Nat) (l : List Nat) : Option Nat :=
  match l with
  | [] => none
  | b :: rest => if b = 43 then parseDigits bound rest else parseDigits bound (b :: rest)

/-! ### Protocol message model (`src/protocol/mod.rs`) -/

/-- `Message`: length (bytes 0-3), mid (4-7), revision (8-10), data (20..). -/
structure Message where
  length : Nat
  mid : Nat
  revision : Nat
  data : List Nat
deriving DecidableEq

/-- `Response`: `(mid, revision, body bytes)`. -/
structure Response where
  mid : Nat
  revision : Nat
  data : List Nat
deriving DecidableEq

/-- `ProtocolError`; the `String` payloads of the Rust enum carry only
diagnostic text and are not modelled. -/
inductive ProtocolError where
  | MessageTooShort (got : Nat)
  | InvalidLength
  | InvalidMid
  | InvalidRevision
  | LengthMismatch (expected actual : Nat)
deriving DecidableEq

/-! ### Serializer (`src/protocol/serializer.rs`) -/

/-- `serialize_response`: 4-digit length = 20 + body, 4-digit mid, 3-digit
revision, 9 spaces (byte 32), then the body. -/
def serialize_response (r : Response) : List Nat :=
  fmt0 4 (20 + r.data.length) ++ fmt0 4 r.mid ++ fmt0 3 r.revision ++
    List.replicate 9 32 ++ r.data

/-! ### Parser (`src/protocol/parser.rs`) -/

/-- Byte slice `data[i..j]` (the Rust code only slices within bounds). -/
def slice (data : List Nat) (i j : Nat) : List Nat := (data.drop i).take (j - i)

/-- `parse_message`: require 20 bytes; parse the length slot (bytes 0..4) as
`u32`, check it equals the buffer length, parse mid (4..8) as `u16` and
revision (8..11) as `u8`; bytes 11..20 are reserved and never inspected;
the body is everything from byte 20 on. -/
def parse_message (data : List Nat) : Except ProtocolError Message :=
  if data.length < 20 then .error (.MessageTooShort data.length)
  else
    match rustParseUInt (2 ^ 32) (slice data 0 4) with
    | none => .error .InvalidLength
    | some length =>
      if data.length ≠ length then .error (.LengthMismatch length data.length)
      else
        match rustParseUInt (2 ^ 16) (slice data 4 8) with
        | none => .error .InvalidMid
        | some mid =>
          match rustParseUInt (2 ^ 8) (slice data 8 11) with
          | none => .error .InvalidRevision
          | some revision => .ok ⟨length, mid, revision, data.drop 20⟩

/-! ### Arithmetic facts about the decimal formatter -/

theorem digitsVal_append_single (l : List Nat) (b : Nat) :
    digitsVal (l ++ [b]) = digitsVal l * 10 + (b - 48) := by
  simp [digitsVal, List.foldl_append]

theorem digitsVal_digitsAux : ∀ fuel n, n ≤ fuel → digitsVal (digitsAux fuel n) = n := by
  intro fuel
  induction fuel with
  | zero => intro n hn; interval_cases n; simp [digitsAux, digitsVal]
  | succ fuel ih =>
    intro n hn
    by_cases h0 : n = 0
    · simp [digitsAux, h0, digitsVal]
    · have hdiv : n / 10 < n := Nat.div_lt_self (Nat.pos_of_ne_zero h0) (by norm_num)
      have : n / 10 ≤ fuel := by omega
      rw [digitsAux, if_neg h0, digitsVal_append_single, ih _ this]
      omega

theorem digitsVal_natToAscii (n : Nat) : digitsVal (natToAscii n) = n := by
  by_cases h0 : n = 0
  · simp [natToAscii, h0, digitsVal]
  · rw [natToAscii, if_neg h0, digitsVal_digitsAux n n le_rfl]

theorem digitsAux_length : ∀ fuel n w, n ≤ fuel → n < 10 ^ w →
    (digitsAux fuel n).length ≤ w := by
  intro fuel
  induction fuel with
  | zero => intro n w hn _; interval_cases n; simp [digitsAux]
  | succ fuel ih =>
    intro n w hn hw
    by_cases h0 : n = 0
    · simp [digitsAux, h0]
    · have hwpos : w ≠ 0 := by
        intro h; rw [h] at hw; simp at hw; omega
      have hdiv : n / 10 < n := Nat.div_lt_self (Nat.pos_of_ne_zero h0) (by norm_num)
      have h1 : n / 10 ≤ fuel := by omega
      have h2 : n / 10 < 10 ^ (w - 1) := by
        rw [Nat.div_lt_iff_lt_mul (by norm_num : (0:ℕ) < 10)]
        calc n < 10 ^ w := hw
        _ = 10 ^ (w - 1) * 10 := by
              conv_lhs => rw [show w = (w - 1) + 1 by omega]
              rw [pow_succ]
      rw [digitsAux, if_neg h0]
      have := ih (n / 10) (w - 1) h1 h2
      simp only [List.length_append, List.length_cons, List.length_nil]
      omega

theorem natToAscii_length_le (n w : Nat) (hw : 0 < w) (hn : n < 10 ^ w) :
    (natToAscii n).length ≤ w := by
  by_cases h0 : n = 0
  · simp [natToAscii, h0]; omega
  · rw [natToAscii, if_neg h0]; exact digitsAux_length n n w le_rfl hn

theorem natToAscii_ne_nil (n : Nat) : natToAscii n ≠ [] := by
  by_cases h0 : n = 0
  · simp [natToAscii, h0]
  · rw [natToAscii, if_neg h0]
    cases n with
    | zero => exact absurd rfl h0
    | succ m =>
      rw [digitsAux, if_neg h0]
      simp

theorem digitsAux_all_digit : ∀ fuel n, ∀ b ∈ digitsAux fuel n, isDigitByte b = true := by
  intro fuel
  induction fuel with
  | zero => intro n b hb; simp [digitsAux] at hb
  | succ fuel ih =>
    intro n b hb
    by_cases h0 : n = 0
    · simp [digitsAux, h0] at hb
    · rw [digitsAux, if_neg h0] at hb
      rcases List.mem_append.mp hb with h | h
      · exact ih _ b h
      · simp at h
        have : n % 10 < 10 := Nat.mod_lt _ (by norm_num)
        simp [isDigitByte, h]
        omega

theorem natToAscii_all_digit (n : Nat) : ∀ b ∈ natToAscii n, isDigitByte b = true := by
  by_cases h0 : n = 0
  · simp [natToAscii, h0, isDigitByte]
  · rw [natToAscii, if_neg h0]; exact digitsAux_all_digit n n

theorem fmt0_length (w n : Nat) (hw : 0 < w) (hn : n < 10 ^ w) :
    (fmt0 w n).length = w := by
  have := natToAscii_length_le n w hw hn
  simp [fmt0]
  omega

theorem fmt0_all_digit (w n : Nat) : ∀ b ∈ fmt0 w n, isDigitByte b = true := by
  intro b hb
  rcases List.mem_append.mp hb with h | h
  · have := List.eq_of_mem_replicate h
    simp [this, isDigitByte]
  · exact natToAscii_all_digit n b h

theorem digitsVal_fmt0 (w n : Nat) : digitsVal (fmt0 w n) = n := by
  rw [fmt0]
  generalize w - (natToAscii n).length = k
  induction k with
  | zero => simpa using digitsVal_natToAscii n
  | succ k ih =>
    rw [List.replicate_succ, List.cons_append]
    have : digitsVal (48 :: (List.replicate k 48 ++ natToAscii n)) =
        digitsVal (List.replicate k 48 ++ natToAscii n) := by
      simp [digitsVal]
    rw [this, ih]

theorem parseDigits_fmt0 (bound w n : Nat) (hw : 0 < w) (hn : n < 10 ^ w)
    (hb : n < bound) : parseDigits bound (fmt0 w n) = some n := by
  have hne : (fmt0 w n).isEmpty = false := by
    have := fmt0_length w n hw hn
    cases h : fmt0 w n with
    | nil => rw [h] at this; simp at this; omega
    | cons a l => simp
  have hall : (fmt0 w n).all isDigitByte = true := by
    rw [List.all_eq_true]; exact fmt0_all_digit w n
  simp [parseDigits, hne, hall, digitsVal_fmt0, hb]

theorem rustParseUInt_fmt0 (bound w n : Nat) (hw : 0 < w) (hn : n < 10 ^ w)
    (hb : n < bound) : rustParseUInt bound (fmt0 w n) = some n := by
  have hlen := fmt0_length w n hw hn
  cases h : fmt0 w n with
  | nil => rw [h] at hlen; simp at hlen; omega
  | cons a l =>
    have ha : isDigitByte a = true := by
      apply fmt0_all_digit w n; rw [h]; exact List.mem_cons_self a l
    have ha43 : a ≠ 43 := by
      simp [isDigitByte] at ha; omega
    rw [rustParseUInt, if_neg ha43, ← h, parseDigits_fmt0 bound w n hw hn hb]

/-! ### Batch manager (`src/batch_manager.rs`)

`u32` counters are embedded as `Nat`: the Rust code uses plain `+`, whose
defined (non-overflowing) behaviour is ordinary addition.
-/

inductive BatchStatus where
  | NotFinished
  | CompletedOk
  | CompletedNok
  | NotUsed
deriving DecidableEq

structure TighteningInfo where
  counter : Nat
  tightening_id : Nat
  batch_status : BatchStatus
deriving DecidableEq

structure BatchManager where
  counter : Nat
  target_size : Nat
  completed : Bool
  has_nok : Bool
deriving DecidableEq

def BatchManager.new (target_size : Nat) : BatchManager :=
  ⟨0, target_size, false, false⟩

/-- `add_tightening`: an OK result advances the counter, a NOK result only
sets `has_nok`; when the counter has reached the target the batch is marked
completed and the returned status is CompletedOk/CompletedNok according to
`has_nok`, otherwise NotFinished. The returned `tightening_id` is a
placeholder 0 for the caller to override. -/
def BatchManager.add_tightening (m : BatchManager) (result_ok : Bool) :
    TighteningInfo × BatchManager :=
  let m1 := if result_ok then { m with counter := m.counter + 1 }
            else { m with has_nok := true }
  if m1.target_size ≤ m1.counter then
    let m2 := { m1 with completed := true }
    (⟨m2.counter, 0, if m2.has_nok then .CompletedNok else .CompletedOk⟩, m2)
  else
    (⟨m1.counter, 0, .NotFinished⟩, m1)

def BatchManager.reset (m : BatchManager) : BatchManager :=
  { m with counter := 0, completed := false, has_nok := false }

def BatchManager.set_target_size (m : BatchManager) (new_size : Nat) : BatchManager :=
  BatchManager.reset { m with target_size := new_size }

/-- Wire encoding of the batch status: 2 while not completed, else 0 when a
NOK occurred during the batch, else 1. -/
def BatchManager.get_batch_status_value (m : BatchManager) : Int :=
  if !m.completed then 2 else if m.has_nok then 0 else 1

def BatchManager.is_complete (m : BatchManager) : Bool := m.completed

/-- `increment`: advance the counter without a tightening result (MID 0020
position skip); marks completion when the target is reached. -/
def BatchManager.increment (m : BatchManager) : Nat × BatchManager :=
  let m1 := { m with counter := m.counter + 1 }
  let m2 := if m1.target_size ≤ m1.counter then { m1 with completed := true } else m1
  (m2.counter, m2)

/-! ### Tightening tracker (`src/tightening_tracker.rs`) -/

inductive TighteningMode where
  | Single
  | Batch (bm : BatchManager)
deriving DecidableEq

structure TighteningTracker where
  mode : TighteningMode
  tightening_sequence : Nat
deriving DecidableEq

def TighteningTracker.new : TighteningTracker := ⟨.Single, 0⟩

/-- `enable_batch`: install a fresh `BatchManager`; the sequence is kept. -/
def TighteningTracker.enable_batch (t : TighteningTracker) (size : Nat) :
    TighteningTracker :=
  { t with mode := .Batch (BatchManager.new size) }

/-- `add_tightening`: bump the global sequence, then in Single mode report
counter 0 / NotUsed, in Batch mode delegate to the batch manager and
override the returned `tightening_id` with the global sequence. -/
def TighteningTracker.add_tightening (t : TighteningTracker) (ok : Bool) :
    TighteningInfo × TighteningTracker :=
  let seq := t.tightening_sequence + 1
  match t.mode with
  | .Single => (⟨0, seq, .NotUsed⟩, ⟨.Single, seq⟩)
  | .Batch bm =>
    let r := bm.add_tightening ok
    ({ r.1 with tightening_id := seq }, ⟨.Batch r.2, seq⟩)

def TighteningTracker.batch_size (t : TighteningTracker) : Nat :=
  match t.mode with
  | .Single => 0
  | .Batch bm => bm.target_size

def TighteningTracker.counter (t : TighteningTracker) : Nat :=
  match t.mode with
  | .Single => 0
  | .Batch bm => bm.counter

def TighteningTracker.should_wait_for_config (t : TighteningTracker) : Bool :=
  match t.mode with
  | .Single => false
  | .Batch bm => bm.is_complete

def TighteningTracker.is_complete (t : TighteningTracker) : Bool :=
  match t.mode with
  | .Single => false
  | .Batch bm => bm.is_complete

def TighteningTracker.increment_batch (t : TighteningTracker) : Nat × TighteningTracker :=
  match t.mode with
  | .Single => (0, t)
  | .Batch bm =>
    let r := bm.increment
    (r.1, { t with mode := .Batch r.2 })

def TighteningTracker.reset_batch (t : TighteningTracker) : Bool × TighteningTracker :=
  match t.mode with
  | .Single => (false, t)
  | .Batch bm => (true, { t with mode := .Batch bm.reset })

/-! ### Subscriptions (`src/subscriptions.rs`) -/

structure Subscriptions where
  tightening_result : Bool
  pset_selection : Bool
  vehicle_id : Bool
  multi_spindle_status : Bool
  multi_spindle_result : Bool
  alarm : Bool
  job_info : Bool
deriving DecidableEq

def Subscriptions.new : Subscriptions := ⟨false, false, false, false, false, false, false⟩

def Subscriptions.subscribe_tightening_result (s : Subscriptions) : Subscriptions :=
  { s with tightening_result := true }

def Subscriptions.unsubscribe_tightening_result (s : Subscriptions) : Subscriptions :=
  { s with tightening_result := false }

def Subscriptions.subscribe_pset_selection (s : Subscriptions) : Subscriptions :=
  { s with pset_selection := true }

def Subscriptions.unsubscribe_pset_selection (s : Subscriptions) : Subscriptions :=
  { s with pset_selection := false }

def Subscriptions.subscribe_vehicle_id (s : Subscriptions) : Subscriptions :=
  { s with vehicle_id := true }

def Subscriptions.unsubscribe_vehicle_id (s : Subscriptions) : Subscriptions :=
  { s with vehicle_id := false }

def Subscriptions.subscribe_multi_spindle_status (s : Subscriptions) : Subscriptions :=
  { s with multi_spindle_status := true }

def Subscriptions.unsubscribe_multi_spindle_status (s : Subscriptions) : Subscriptions :=
  { s with multi_spindle_status := false }

def Subscriptions.subscribe_multi_spindle_result (s : Subscriptions) : Subscriptions :=
  { s with multi_spindle_result := true }

def Subscriptions.unsubscribe_multi_spindle_result (s : Subscriptions) : Subscriptions :=
  { s with multi_spindle_result := false }

/-- The five subscription kinds that have subscribe/unsubscribe operations. -/
inductive SubscriptionKind where
  | tightening_result
  | pset_selection
  | vehicle_id
  | multi_spindle_status
  | multi_spindle_result
deriving DecidableEq

def subscribeKind (k : SubscriptionKind) (s : Subscriptions) : Subscriptions :=
  match k with
  | .tightening_result => s.subscribe_tightening_result
  | .pset_selection => s.subscribe_pset_selection
  | .vehicle_id => s.subscribe_vehicle_id
  | .multi_spindle_status => s.subscribe_multi_spindle_status
  | .multi_spindle_result => s.subscribe_multi_spindle_result

def unsubscribeKind (k : SubscriptionKind) (s : Subscriptions) : Subscriptions :=
  match k with
  | .tightening_result => s.unsubscribe_tightening_result
  | .pset_selection => s.unsubscribe_pset_selection
  | .vehicle_id => s.unsubscribe_vehicle_id
  | .multi_spindle_status => s.unsubscribe_multi_spindle_status
  | .multi_spindle_result => s.unsubscribe_multi_spindle_result

def isSubscribedKind (k : SubscriptionKind) (s : Subscriptions) : Bool :=
  match k with
  | .tightening_result => s.tightening_result
  | .pset_selection => s.pset_selection
  | .vehicle_id => s.vehicle_id
  | .multi_spindle_status => s.multi_spindle_status
  | .multi_spindle_result => s.multi_spindle_result

/-! ### PSET repository (`src/pset.rs`)

The `f64` torque/angle bounds are embedded as `ℚ`: the in-memory repository
only stores and compares ids, never computes on the float fields, so this
embedding is exact for every operation modelled here.
-/

structure Pset where
  id : Nat
  name : String
  torque_min : ℚ
  torque_max : ℚ
  angle_min : ℚ
  angle_max : ℚ
  description : Option String
deriving DecidableEq

/-- The five hardcoded default PSETs. -/
def default_psets : List Pset :=
  [⟨1, "Light Duty", 5, 10, 30, 45,
    some "Low torque applications (e.g., electronics, small assemblies)"⟩,
   ⟨2, "Standard", 10, 15, 35, 50,
    some "General purpose tightening operations"⟩,
   ⟨3, "Heavy Duty", 15, 25, 40, 60,
    some "High torque applications (e.g., automotive, machinery)"⟩,
   ⟨4, "Precision", 8, 12, 20, 30,
    some "Tight tolerance requirements"⟩,
   ⟨5, "Extra Heavy", 25, 40, 50, 90,
    some "Maximum torque applications (e.g., industrial equipment)"⟩]

structure InMemoryPsetRepository where
  psets : List Pset
deriving DecidableEq

def InMemoryPsetRepository.new : InMemoryPsetRepository := ⟨default_psets⟩

def InMemoryPsetRepository.get_all (r : InMemoryPsetRepository) : List Pset := r.psets

def InMemoryPsetRepository.get_by_id (r : InMemoryPsetRepository) (id : Nat) :
    Option Pset :=
  r.psets.find? (fun p => p.id == id)

/-- `create`: assign `max existing id + 1` (0 when empty) and push; the
in-memory implementation performs no validation of any kind. -/
def InMemoryPsetRepository.create (r : InMemoryPsetRepository) (pset : Pset) :
    Except String (Pset × InMemoryPsetRepository) :=
  let max_id := (r.psets.map Pset.id).foldl max 0
  let p := { pset with id := max_id + 1 }
  .ok (p, ⟨r.psets ++ [p]⟩)

/-- Replace the first entry whose id matches (Rust `iter_mut().find`). -/
def replaceFirstPset (l : List Pset) (id : Nat) (pset : Pset) : List Pset :=
  match l with
  | [] => []
  | p :: rest => if p.id == id then pset :: rest else p :: replaceFirstPset rest id pset

/-- `update`: overwrite the first entry with the given id, or fail when no
entry has it; no validation is performed. -/
def InMemoryPsetRepository.update (r : InMemoryPsetRepository) (id : Nat) (pset : Pset) :
    Except String (Pset × InMemoryPsetRepository) :=
  match r.psets.find? (fun p => p.id == id) with
  | some _ => .ok (pset, ⟨replaceFirstPset r.psets id pset⟩)
  | none => .error ("PSET with id " ++ toString id ++ " not found")

/-- `delete`: retain entries with a different id; fail only when nothing was
removed. Default entries are not protected. -/
def InMemoryPsetRepository.delete (r : InMemoryPsetRepository) (id : Nat) :
    Except String InMemoryPsetRepository :=
  let remaining := r.psets.filter (fun p => !(p.id == id))
  if remaining.length < r.psets.length then .ok ⟨remaining⟩
  else .error ("PSET with id " ++ toString id ++ " not found")

def exceptIsOk {ε α : Type} (e : Except ε α) : Bool :=
  match e with
  | .ok _ => true
  | .error _ => false

/-! ### Multi-spindle model (`src/multi_spindle.rs`)

Torque (cNm) and angle (dDeg) are `i32` in the source and become `Int`;
ids and statuses become `Nat`. The wall-clock timestamp string is an input
parameter (`now`) rather than a hidden effect.
-/

structure MultiSpindleConfig where
  enabled : Bool
  spindle_count : Nat
  sync_id : Nat
deriving DecidableEq

structure SpindleResult where
  spindle_id : Nat
  channel_id : Nat
  torque : Int
  angle : Int
  torque_status : Nat
  angle_status : Nat
deriving DecidableEq

def SpindleResult.ok (spindle_id : Nat) (torque angle : Int) : SpindleResult :=
  ⟨spindle_id, spindle_id, torque, angle, 0, 0⟩

def SpindleResult.nok (spindle_id : Nat) (torque angle : Int)
    (torque_failed angle_failed : Bool) : SpindleResult :=
  ⟨spindle_id, spindle_id, torque, angle,
   if torque_failed then 1 else 0, if angle_failed then 1 else 0⟩

def SpindleResult.is_ok (r : SpindleResult) : Bool :=
  r.torque_status == 0 && r.angle_status == 0

structure MultiSpindleResult where
  result_id : Nat
  sync_id : Nat
  timestamp : String
  overall_status : Nat
  spindle_count : Nat
  spindle_results : List SpindleResult
deriving DecidableEq

/-- `MultiSpindleResult::new`: overall status is 0 exactly when every
spindle is OK, else 1. -/
def MultiSpindleResult.new (now : String) (result_id sync_id : Nat)
    (spindle_results : List SpindleResult) : MultiSpindleResult :=
  ⟨result_id, sync_id, now,
   if spindle_results.all SpindleResult.is_ok then 0 else 1,
   spindle_results.length, spindle_results⟩

/-- One iteration of the generation loop for spindle `sid` (1-based). -/
def generatedSpindle (count result_id sid : Nat) : SpindleResult :=
  let variation : Int := ((sid : Int) - 1) * 5
  let torque := 5000 + variation * 10
  let angle := 1800 + variation * 2
  if sid ≠ count ∨ ¬ result_id % 10 = 0 then SpindleResult.ok sid torque angle
  else SpindleResult.nok sid (torque - 500) angle true false

/-- `generate_multi_spindle_results`: one result per spindle id `1..=count`;
the last spindle is made NOK (torque failure, torque reduced by 500) exactly
when `result_id` is a multiple of 10. The `pset_id` argument is unused in
the source as well. -/
def generate_multi_spindle_results (config : MultiSpindleConfig)
    (result_id _pset_id : Nat) (now : String) : MultiSpindleResult :=
  MultiSpindleResult.new now result_id config.sync_id
    ((List.range config.spindle_count).map
      (fun k => generatedSpindle config.spindle_count result_id (k + 1)))

/-! ### Field builder (`src/protocol/field.rs`) and response payloads -/

/-- `Field::from_str` with no parameter id: left-justify in `width`
space-padded bytes, truncating on the right when longer. Strings are
embedded as their bytes; the source measures `str::len` (bytes) and pads
with ASCII spaces, which agree for the ASCII data handled here. -/
def fieldFromStr (value : List Nat) (width : Nat) : List Nat :=
  if width ≤ value.length then value.take width
  else value ++ List.replicate (width - value.length) 32

/-- `Field::from_int` with no parameter id: `format!` zero-padded to
`width` (all integers serialized this way in the modelled paths are
nonnegative). -/
def fieldFromInt (value width : Nat) : List Nat := fmt0 width value

/-- `CommandAccepted::serialize` (MID 0005 body): the accepted MID as a
4-digit zero-padded integer field. -/
def commandAcceptedData (accepted_mid : Nat) : List Nat := fieldFromInt accepted_mid 4

/-- `VehicleIdBroadcast::serialize` (MID 0052 body): the VIN padded with
spaces on the right to exactly 25 bytes (truncated when longer), then
emitted as a width-25 string field. -/
def vehicleIdBroadcastData (vin : List Nat) : List Nat :=
  let vin25 := if 25 ≤ vin.length then vin.take 25
               else vin ++ List.replicate (25 - vin.length) 32
  fieldFromStr vin25 25

/-! ### Connection loop, MID 0051 path (`src/main.rs`, `serve_tcp_client`)

On an inbound MID 0051 the loop sends the handler's MID 0005 ack
(`VehicleIdSubscriptionHandler`, `src/handler/vehicle_id_subscription.rs`)
and then immediately a MID 0052 frame. The code builds that frame from
`String::new()` — it does not read the device state — so the `device_vin`
argument (the VIN held in the observable device state) is unused. -/
def serve_mid51 (_device_vin : List Nat) (rev : Nat) : List (List Nat) :=
  [serialize_response ⟨5, rev, commandAcceptedData 51⟩,
   serialize_response ⟨52, 1, vehicleIdBroadcastData []⟩]

/-! ### Lossy UTF-8 decoding and `str::trim`, for the MID 0019 handler

`BatchSizeHandler` runs `String::from_utf8_lossy(bytes).trim().parse::<u32>()
.unwrap_or(1)`. A strict UTF-8 decoder suffices to model this chain at the
level of the parsed value: when the bytes are not valid UTF-8 the lossy
conversion inserts at least one U+FFFD, which `trim` never strips (it is not
whitespace) and which makes the numeric parse fail, so the result is the
default 1 in every such case.
-/

def isCont (b : Nat) : Bool := 0x80 ≤ b && b ≤ 0xBF

/-- Constraint on the first continuation byte of a 3-byte sequence
(excludes overlong encodings and surrogates). -/
def utf8Cont3 (b c1 : Nat) : Bool :=
  if b = 0xE0 then 0xA0 ≤ c1 && c1 ≤ 0xBF
  else if b = 0xED then 0x80 ≤ c1 && c1 ≤ 0x9F
  else isCont c1

/-- Constraint on the first continuation byte of a 4-byte sequence
(excludes overlong encodings and codepoints above U+10FFFF). -/
def utf8Cont4 (b c1 : Nat) : Bool :=
  if b = 0xF0 then 0x90 ≤ c1 && c1 ≤ 0xBF
  else if b = 0xF4 then 0x80 ≤ c1 && c1 ≤ 0x8F
  else isCont c1

/-- Strict UTF-8 decoding of a byte list into codepoints; `none` when the
bytes are not valid UTF-8. -/
def utf8Decode : List Nat → Option (List Nat)
  | [] => some []
  | b :: rest =>
    if b ≤ 0x7F then (utf8Decode rest).map (b :: ·)
    else if 0xC2 ≤ b && b ≤ 0xDF then
      match rest with
      | c1 :: r =>
        if isCont c1 then
          (utf8Decode r).map (((b - 0xC0) * 0x40 + (c1 - 0x80)) :: ·)
        else none
      | [] => none
    else if 0xE0 ≤ b && b ≤ 0xEF then
      match rest with
      | c1 :: c2 :: r =>
        if utf8Cont3 b c1 && isCont c2 then
          (utf8Decode r).map
            (((b - 0xE0) * 0x1000 + (c1 - 0x80) * 0x40 + (c2 - 0x80)) :: ·)
        else none
      | _ => none
    else if 0xF0 ≤ b && b ≤ 0xF4 then
      match rest with
      | c1 :: c2 :: c3 :: r =>
        if utf8Cont4 b c1 && isCont c2 && isCont c3 then
          (utf8Decode r).map
            (((b - 0xF0) * 0x40000 + (c1 - 0x80) * 0x1000 +
              (c2 - 0x80) * 0x40 + (c3 - 0x80)) :: ·)
        else none
      | _ => none
    else none

/-- Rust `char::is_whitespace` (the Unicode White_Space property). -/
def isWhitespaceCp (c : Nat) : Bool :=
  c == 0x20 || (0x9 ≤ c && c ≤ 0xD) || c == 0x85 || c == 0xA0 ||
  c == 0x1680 || (0x2000 ≤ c && c ≤ 0x200A) || c == 0x2028 || c == 0x2029 ||
  c == 0x202F || c == 0x205F || c == 0x3000

/-- `str::trim`: strip whitespace codepoints from both ends. -/
def trimCps (l : List Nat) : List Nat :=
  ((l.dropWhile isWhitespaceCp).reverse.dropWhile isWhitespaceCp).reverse

/-- `String::from_utf8_lossy(bytes).trim().parse::<u32>()` at the level of
the parsed value (see the section comment for why invalid UTF-8 is `none`). -/
def lossyTrimParseU32 (l : List Nat) : Option Nat :=
  match utf8Decode l with
  | none => none
  | some cps => rustParseUInt (2 ^ 32) (trimCps cps)

/-! ### MID 0019 batch size handler (`src/handler/batch_size.rs`)

The handler slices `message.data[0..=2]` (pset id, used only for logging)
and `message.data[3..]` (batch size) whenever the body is non-empty; for a
non-empty body of fewer than 3 bytes the first slice is out of bounds and
the Rust code panics, modelled as `none`. The device-state update
`state.set_batch_size(size)` is `tracker.enable_batch(size)`
(`src/state.rs`), so the handler is modelled as acting on the tracker. -/
def batchSizeHandle (msg : Message) (t : TighteningTracker) :
    Option (Response × TighteningTracker) :=
  if msg.data.isEmpty then
    let size := (lossyTrimParseU32 [49]).getD 1
    some (⟨5, msg.revision, commandAcceptedData 19⟩, t.enable_batch size)
  else if msg.data.length < 3 then none
  else
    let size := (lossyTrimParseU32 (msg.data.drop 3)).getD 1
    some (⟨5, msg.revision, commandAcceptedData 19⟩, t.enable_batch size)

/-! ### List slicing helpers -/

theorem take_append_len {α : Type} (a b : List α) (n : Nat) (h : a.length = n) :
    (a ++ b).take n = a := by
  subst h
  induction a with
  | nil => simp
  | cons x xs ih => simp [ih]

theorem drop_append_len {α : Type} (a b : List α) (n : Nat) (h : a.length = n) :
    (a ++ b).drop n = b := by
  subst h
  induction a with
  | nil => simp
  | cons x xs ih => simp [ih]

/-! ### Claim C1 -/

/-- Claim C1 (counterexample): the claim quantifies over every message
triple, but mid 10000 — a representable `u16` — is printed as five digits,
producing a 21-byte frame whose length field still says 20; parsing the
serializer's output then fails with a length mismatch instead of returning
the triple. -/
theorem claim1_counterexample :
    parse_message (serialize_response ⟨10000, 1, []⟩) =
      .error (.LengthMismatch 20 21) := by rfl

/-- Claim C1 (amended): for mids of at most four digits and bodies of at
most 9979 bytes (so that the total length fits the 4-digit field; the
revision is a `u8`, hence at most 255), parsing the serializer's output
returns exactly the serialized triple, the 4-digit length field holds
`20 + len(body)` which is the frame's total byte length, and
serialize-parse-serialize is a fixed point. -/
theorem claim1_roundtrip (mid rev : Nat) (body : List Nat)
    (hm : mid ≤ 9999) (hr : rev ≤ 255) (hb : body.length ≤ 9979) :
    (serialize_response ⟨mid, rev, body⟩).length = 20 + body.length
    ∧ rustParseUInt (2 ^ 32) (slice (serialize_response ⟨mid, rev, body⟩) 0 4)
        = some (20 + body.length)
    ∧ parse_message (serialize_response ⟨mid, rev, body⟩)
        = .ok ⟨20 + body.length, mid, rev, body⟩
    ∧ (parse_message (serialize_response ⟨mid, rev, body⟩)).map
        (fun m => serialize_response ⟨m.mid, m.revision, m.data⟩)
        = .ok (serialize_response ⟨mid, rev, body⟩) := by
  have h4 : 20 + body.length < 10 ^ 4 := by norm_num; omega
  have hm4 : mid < 10 ^ 4 := by norm_num; omega
  have hr3 : rev < 10 ^ 3 := by norm_num; omega
  have hA := fmt0_length 4 (20 + body.length) (by norm_num) h4
  have hB := fmt0_length 4 mid (by norm_num) hm4
  have hC := fmt0_length 3 rev (by norm_num) hr3
  have hs : serialize_response ⟨mid, rev, body⟩ =
      fmt0 4 (20 + body.length) ++ (fmt0 4 mid ++ (fmt0 3 rev ++
        (List.replicate 9 32 ++ body))) := by
    simp [serialize_response, List.append_assoc]
  have hlen : (serialize_response ⟨mid, rev, body⟩).length = 20 + body.length := by
    rw [hs]
    simp only [List.length_append, List.length_replicate, hA, hB, hC]
    omega
  have h04 : slice (serialize_response ⟨mid, rev, body⟩) 0 4 =
      fmt0 4 (20 + body.length) := by
    rw [slice, hs]
    simp only [List.drop_zero]
    exact take_append_len _ _ 4 hA
  have h48 : slice (serialize_response ⟨mid, rev, body⟩) 4 8 = fmt0 4 mid := by
    rw [slice, hs, drop_append_len _ _ 4 hA]
    exact take_append_len _ _ 4 hB
  have h811 : slice (serialize_response ⟨mid, rev, body⟩) 8 11 = fmt0 3 rev := by
    rw [slice, hs, ← List.append_assoc]
    have h8 : (fmt0 4 (20 + body.length) ++ fmt0 4 mid).length = 8 := by
      rw [List.length_append, hA, hB]
    rw [drop_append_len _ _ 8 h8]
    exact take_append_len _ _ 3 hC
  have h20 : (serialize_response ⟨mid, rev, body⟩).drop 20 = body := by
    rw [hs]
    have hgroup : fmt0 4 (20 + body.length) ++ (fmt0 4 mid ++ (fmt0 3 rev ++
        (List.replicate 9 32 ++ body))) =
        (((fmt0 4 (20 + body.length) ++ fmt0 4 mid) ++ fmt0 3 rev) ++
          List.replicate 9 32) ++ body := by
      simp [List.append_assoc]
    rw [hgroup]
    apply drop_append_len
    simp only [List.length_append, List.length_replicate, hA, hB, hC]
  have hpA : rustParseUInt (2 ^ 32) (fmt0 4 (20 + body.length)) =
      some (20 + body.length) :=
    rustParseUInt_fmt0 _ 4 _ (by norm_num) h4 (by norm_num; omega)
  have hpB : rustParseUInt (2 ^ 16) (fmt0 4 mid) = some mid :=
    rustParseUInt_fmt0 _ 4 _ (by norm_num) hm4 (by norm_num; omega)
  have hpC : rustParseUInt (2 ^ 8) (fmt0 3 rev) = some rev :=
    rustParseUInt_fmt0 _ 3 _ (by norm_num) hr3 (by norm_num; omega)
  have hparse : parse_message (serialize_response ⟨mid, rev, body⟩) =
      .ok ⟨20 + body.length, mid, rev, body⟩ := by
    rw [parse_message, h04, hpA, if_neg (by omega)]
    simp only [hlen]
    rw [if_neg (by omega), h48, hpB, h811, hpC, h20]
  refine ⟨hlen, by rw [h04]; exact hpA, hparse, ?_⟩
  rw [hparse]
  rfl

/-- Claim C1 (witness): the amended roundtrip at mid 2, revision 1 and an
empty body. -/
theorem claim1_roundtrip_witness :
    (serialize_response ⟨2, 1, ([] : List Nat)⟩).length = 20 + ([] : List Nat).length
    ∧ rustParseUInt (2 ^ 32) (slice (serialize_response ⟨2, 1, ([] : List Nat)⟩) 0 4)
        = some (20 + ([] : List Nat).length)
    ∧ parse_message (serialize_response ⟨2, 1, ([] : List Nat)⟩)
        = .ok ⟨20 + ([] : List Nat).length, 2, 1, []⟩
    ∧ (parse_message (serialize_response ⟨2, 1, ([] : List Nat)⟩)).map
        (fun m => serialize_response ⟨m.mid, m.revision, m.data⟩)
        = .ok (serialize_response ⟨2, 1, ([] : List Nat)⟩) :=
  claim1_roundtrip 2 1 [] (by norm_num) (by norm_num) (by simp)

/-! ### Claim C2 -/

/-- States of a `BatchManager` reachable from `new` with positive target
sizes, under the four mutating operations. -/
inductive BatchReachable : BatchManager → Prop where
  | init (t : Nat) (ht : 1 ≤ t) : BatchReachable (BatchManager.new t)
  | add (m : BatchManager) (ok : Bool) :
      BatchReachable m → BatchReachable (m.add_tightening ok).2
  | reset (m : BatchManager) : BatchReachable m → BatchReachable m.reset
  | set (m : BatchManager) (n : Nat) (hn : 1 ≤ n) :
      BatchReachable m → BatchReachable (m.set_target_size n)
  | inc (m : BatchManager) : BatchReachable m → BatchReachable m.increment.2

theorem batchReachable_inv (m : BatchManager) (h : BatchReachable m) :
    1 ≤ m.target_size ∧ (m.completed = true ↔ m.target_size ≤ m.counter) := by
  induction h with
  | init t ht => simp [BatchManager.new]; omega
  | add m ok hr ih =>
    obtain ⟨c, t, comp, nok⟩ := m
    obtain ⟨h1, h2⟩ := ih
    dsimp only at h1 h2
    cases ok with
    | true =>
      by_cases hc : t ≤ c + 1
      · have hres : (BatchManager.add_tightening ⟨c, t, comp, nok⟩ true).2 =
            ⟨c + 1, t, true, nok⟩ := by
          simp [BatchManager.add_tightening, hc]
        rw [hres]
        exact ⟨h1, by simpa using hc⟩
      · have hres : (BatchManager.add_tightening ⟨c, t, comp, nok⟩ true).2 =
            ⟨c + 1, t, comp, nok⟩ := by
          simp [BatchManager.add_tightening, hc]
        rw [hres]
        refine ⟨h1, ?_⟩
        dsimp only
        rw [h2]
        omega
    | false =>
      by_cases hc : t ≤ c
      · have hres : (BatchManager.add_tightening ⟨c, t, comp, nok⟩ false).2 =
            ⟨c, t, true, true⟩ := by
          simp [BatchManager.add_tightening, hc]
        rw [hres]
        exact ⟨h1, by simpa using hc⟩
      · have hres : (BatchManager.add_tightening ⟨c, t, comp, nok⟩ false).2 =
            ⟨c, t, comp, true⟩ := by
          simp [BatchManager.add_tightening, hc]
        rw [hres]
        exact ⟨h1, h2⟩
  | reset m hr ih =>
    obtain ⟨c, t, comp, nok⟩ := m
    obtain ⟨h1, h2⟩ := ih
    dsimp only at h1 h2
    simp [BatchManager.reset]
    omega
  | set m n hn hr ih =>
    obtain ⟨c, t, comp, nok⟩ := m
    simp [BatchManager.set_target_size, BatchManager.reset]
    omega
  | inc m hr ih =>
    obtain ⟨c, t, comp, nok⟩ := m
    obtain ⟨h1, h2⟩ := ih
    dsimp only at h1 h2
    by_cases hc : t ≤ c + 1
    · have hres : (BatchManager.increment ⟨c, t, comp, nok⟩).2 =
          ⟨c + 1, t, true, nok⟩ := by
        simp [BatchManager.increment, hc]
      rw [hres]
      exact ⟨h1, by simpa using hc⟩
    · have hres : (BatchManager.increment ⟨c, t, comp, nok⟩).2 =
          ⟨c + 1, t, comp, nok⟩ := by
        simp [BatchManager.increment, hc]
      rw [hres]
      refine ⟨h1, ?_⟩
      dsimp only
      rw [h2]
      omega

/-- Claim C2 (counterexample): `new(0)` already violates
`completed ⇔ counter ≥ target_size` (counter 0 ≥ target 0 but not
completed), and with target 1 two OK tightenings drive the counter to 2,
violating `counter ≤ target_size`. -/
theorem claim2_counterexample :
    ((BatchManager.new 0).completed = false ∧
      (BatchManager.new 0).target_size ≤ (BatchManager.new 0).counter) ∧
    ((((BatchManager.new 1).add_tightening true).2.add_tightening true).2.counter = 2 ∧
      (((BatchManager.new 1).add_tightening true).2.add_tightening true).2.target_size = 1 ∧
      ¬ (((BatchManager.new 1).add_tightening true).2.add_tightening true).2.counter ≤
        (((BatchManager.new 1).add_tightening true).2.add_tightening true).2.target_size) := by
  decide

/-- Claim C2 (amended): along every trajectory from `new(target_size)` with
positive target sizes (also at `set_target_size`), the state satisfies
`completed ⇔ counter ≥ target_size`, and `counter ≤ target_size` holds as
long as the batch is not completed; once completed, further calls may push
the counter past the target. -/
theorem claim2_invariant (m : BatchManager) (h : BatchReachable m) :
    (m.completed = true ↔ m.target_size ≤ m.counter) ∧
    (m.completed = false → m.counter ≤ m.target_size) := by
  obtain ⟨h1, h2⟩ := batchReachable_inv m h
  refine ⟨h2, ?_⟩
  intro hf
  have hnc : ¬ m.target_size ≤ m.counter := by
    intro hc
    have h3 := h2.mpr hc
    rw [h3] at hf
    simp at hf
  omega

/-- Claim C2 (witness): the invariant after one OK tightening on a fresh
batch of target 2. -/
theorem claim2_invariant_witness :
    ((((BatchManager.new 2).add_tightening true).2.completed = true ↔
      ((BatchManager.new 2).add_tightening true).2.target_size ≤
        ((BatchManager.new 2).add_tightening true).2.counter) ∧
    (((BatchManager.new 2).add_tightening true).2.completed = false →
      ((BatchManager.new 2).add_tightening true).2.counter ≤
        ((BatchManager.new 2).add_tightening true).2.target_size)) :=
  claim2_invariant _ (BatchReachable.add _ true (BatchReachable.init 2 (by norm_num)))

/-! ### Claim C3 -/

/-- Claim C3 (counterexample): in batch mode with target 2, the scenario
OK, NOK, OK, OK returns counter 3 on the fourth call — the counter keeps
advancing past the target — not the claimed 2. -/
theorem claim3_counterexample :
    (((((TighteningTracker.new.enable_batch 2).add_tightening true).2.add_tightening
        false).2.add_tightening true).2.add_tightening true).1.counter = 3 ∧
    ¬ (((((TighteningTracker.new.enable_batch 2).add_tightening true).2.add_tightening
        false).2.add_tightening true).2.add_tightening true).1.counter = 2 := by
  decide

/-- Claim C3 (amended): the S4 scenario (batch target 2; OK, NOK, OK, OK)
returns counters 1, 1, 2, 3, tightening ids 1, 2, 3, 4, final status
CompletedNok, and the encoded wire batch-status value of the resulting
batch manager is 0. -/
theorem claim3_scenario :
    ((TighteningTracker.new.enable_batch 2).add_tightening true).1.counter = 1
    ∧ (((TighteningTracker.new.enable_batch 2).add_tightening
        true).2.add_tightening false).1.counter = 1
    ∧ ((((TighteningTracker.new.enable_batch 2).add_tightening
        true).2.add_tightening false).2.add_tightening true).1.counter = 2
    ∧ (((((TighteningTracker.new.enable_batch 2).add_tightening
        true).2.add_tightening false).2.add_tightening true).2.add_tightening
        true).1.counter = 3
    ∧ ((TighteningTracker.new.enable_batch 2).add_tightening true).1.tightening_id = 1
    ∧ (((TighteningTracker.new.enable_batch 2).add_tightening
        true).2.add_tightening false).1.tightening_id = 2
    ∧ ((((TighteningTracker.new.enable_batch 2).add_tightening
        true).2.add_tightening false).2.add_tightening true).1.tightening_id = 3
    ∧ (((((TighteningTracker.new.enable_batch 2).add_tightening
        true).2.add_tightening false).2.add_tightening true).2.add_tightening
        true).1.tightening_id = 4
    ∧ (((((TighteningTracker.new.enable_batch 2).add_tightening
        true).2.add_tightening false).2.add_tightening true).2.add_tightening
        true).1.batch_status = BatchStatus.CompletedNok
    ∧ (((((TighteningTracker.new.enable_batch 2).add_tightening
        true).2.add_tightening false).2.add_tightening true).2.add_tightening
        true).2.mode = TighteningMode.Batch ⟨3, 2, true, true⟩
    ∧ BatchManager.get_batch_status_value ⟨3, 2, true, true⟩ = 0 := by
  decide

/-! ### Claim C4 -/

/-- Claim C4 (confirmed): every `add_tightening` call, in either mode and
for either result, increases the global `tightening_sequence` by exactly
one (and stamps it into the returned `tightening_id`), while `enable_batch`
leaves the sequence unchanged. -/
theorem claim4_sequence (t : TighteningTracker) (ok : Bool) (size : Nat) :
    (t.add_tightening ok).2.tightening_sequence = t.tightening_sequence + 1
    ∧ (t.add_tightening ok).1.tightening_id = t.tightening_sequence + 1
    ∧ (t.enable_batch size).tightening_sequence = t.tightening_sequence := by
  obtain ⟨mode, seq⟩ := t
  cases mode <;>
    simp [TighteningTracker.add_tightening, TighteningTracker.enable_batch]

/-! ### Claim C5 -/

/-- Claim C5 (counterexample): a 21-byte input whose length slot is the
bytes `+021` — containing the non-digit byte 43 — parses successfully,
because Rust's unsigned-integer parse accepts an optional leading plus
sign; the claim instead requires failure with InvalidLength for any
non-digit in the slot. -/
theorem claim5_counterexample :
    parse_message ([43, 48, 50, 49, 48, 48, 48, 49, 48, 48, 49] ++
        List.replicate 9 32 ++ [88]) = .ok ⟨21, 1, 1, [88]⟩
    ∧ isDigitByte 43 = false := by
  constructor
  · rfl
  · rfl

/-- Claim C5 (amended): `parse_message` fails with MessageTooShort on every
input shorter than 20 bytes; on longer inputs the header slots are checked
in order, each slot parsed as Rust parses unsigned integers (optional
leading plus sign, digits, value within the type's range): an unparsable
length slot (bytes 0..4) gives InvalidLength, a parsed length differing
from the buffer length gives LengthMismatch, an unparsable mid slot (4..8)
gives InvalidMid, an unparsable revision slot (8..11) gives
InvalidRevision, and otherwise parsing succeeds with the body equal to
bytes 20.. — the reserved bytes 11..20 never being inspected. -/
theorem claim5_amended (data : List Nat) :
    (data.length < 20 → parse_message data = .error (.MessageTooShort data.length))
    ∧ (20 ≤ data.length → rustParseUInt (2 ^ 32) (slice data 0 4) = none →
        parse_message data = .error .InvalidLength)
    ∧ (∀ L, 20 ≤ data.length → rustParseUInt (2 ^ 32) (slice data 0 4) = some L →
        data.length ≠ L → parse_message data = .error (.LengthMismatch L data.length))
    ∧ (∀ L, 20 ≤ data.length → rustParseUInt (2 ^ 32) (slice data 0 4) = some L →
        data.length = L → rustParseUInt (2 ^ 16) (slice data 4 8) = none →
        parse_message data = .error .InvalidMid)
    ∧ (∀ L M, 20 ≤ data.length → rustParseUInt (2 ^ 32) (slice data 0 4) = some L →
        data.length = L → rustParseUInt (2 ^ 16) (slice data 4 8) = some M →
        rustParseUInt (2 ^ 8) (slice data 8 11) = none →
        parse_message data = .error .InvalidRevision)
    ∧ (∀ L M R, 20 ≤ data.length → rustParseUInt (2 ^ 32) (slice data 0 4) = some L →
        data.length = L → rustParseUInt (2 ^ 16) (slice data 4 8) = some M →
        rustParseUInt (2 ^ 8) (slice data 8 11) = some R →
        parse_message data = .ok ⟨L, M, R, data.drop 20⟩) := by
  refine ⟨?_, ?_, ?_, ?_, ?_, ?_⟩
  · intro h
    rw [parse_message, if_pos h]
  · intro h1 h2
    rw [parse_message, if_neg (by omega), h2]
  · intro L h1 h2 h3
    rw [parse_message, if_neg (by omega), h2]
    simp [h3]
  · intro L h1 h2 h3 h4
    rw [parse_message, if_neg (by omega), h2]
    norm_num at h4
    simp [h3, h4]
  · intro L M h1 h2 h3 h4 h5
    rw [parse_message, if_neg (by omega), h2]
    norm_num at h4 h5
    simp [h3, h4, h5]
  · intro L M R h1 h2 h3 h4 h5
    rw [parse_message, if_neg (by omega), h2]
    norm_num at h4 h5
    simp [h3, h4, h5]

/-- Claim C5 (witness): one concrete input per branch of the amended
characterization. -/
theorem claim5_amended_witness :
    parse_message [48, 49] = .error (.MessageTooShort 2)
    ∧ parse_message ([88, 88, 88, 88] ++ List.replicate 16 32) =
        .error .InvalidLength
    ∧ parse_message ([48, 48, 51, 48, 48, 48, 48, 49, 48, 48, 49] ++
        List.replicate 9 32) = .error (.LengthMismatch 30 20)
    ∧ parse_message ([48, 48, 50, 48, 88, 88, 88, 88, 48, 48, 49] ++
        List.replicate 9 32) = .error .InvalidMid
    ∧ parse_message ([48, 48, 50, 48, 48, 48, 48, 49, 88, 89, 90] ++
        List.replicate 9 32) = .error .InvalidRevision
    ∧ parse_message ([48, 48, 50, 48, 48, 48, 48, 49, 48, 48, 49] ++
        List.replicate 9 32) = .ok ⟨20, 1, 1, []⟩ :=
  ⟨(claim5_amended [48, 49]).1 (by decide),
   (claim5_amended _).2.1 (by decide) (by rfl),
   (claim5_amended _).2.2.1 30 (by decide) (by rfl) (by decide),
   (claim5_amended _).2.2.2.1 20 (by decide) (by rfl) (by rfl) (by rfl),
   (claim5_amended _).2.2.2.2.1 20 1 (by decide) (by rfl) (by rfl) (by rfl) (by rfl),
   (claim5_amended _).2.2.2.2.2 20 1 1 (by decide) (by rfl) (by rfl) (by rfl) (by rfl)⟩

/-! ### Claim C6 -/

theorem filter_length_lt_iff {α : Type} (l : List α) (p : α → Bool) :
    (l.filter p).length < l.length ↔ ∃ x ∈ l, ¬ p x = true := by
  induction l with
  | nil => simp
  | cons a l ih =>
    by_cases hp : p a = true
    · simp [hp, ih]
    · have hle := List.length_filter_le p l
      simp [hp]
      omega

/-- Claim C6 (counterexample): on the default in-memory repository,
`create` accepts a parameter set with `torque_min > torque_max`,
`angle_min > angle_max`, and a name duplicating the default "Light Duty"
entry, and `delete 1` succeeds on the default "Light Duty" entry itself. -/
theorem claim6_counterexample :
    exceptIsOk (InMemoryPsetRepository.new.create
      ⟨0, "Light Duty", 10, 5, 50, 40, none⟩) = true
    ∧ exceptIsOk (InMemoryPsetRepository.new.delete 1) = true := by
  constructor
  · rfl
  · rfl

/-- Claim C6 (amended): the in-memory PSET repository performs no
validation: `create` always succeeds (assigning max id + 1), `update`
fails exactly when no entry has the given id, and `delete` fails exactly
when no entry has the given id — in particular the five default entries
can be updated and deleted like any others. -/
theorem claim6_amended (r : InMemoryPsetRepository) (p : Pset) (id : Nat) :
    exceptIsOk (r.create p) = true
    ∧ (exceptIsOk (r.update id p) = true ↔ ∃ q ∈ r.psets, q.id = id)
    ∧ (exceptIsOk (r.delete id) = true ↔ ∃ q ∈ r.psets, q.id = id) := by
  refine ⟨rfl, ?_, ?_⟩
  · rw [InMemoryPsetRepository.update]
    cases hf : r.psets.find? (fun q => q.id == id) with
    | some q =>
      simp only [exceptIsOk, true_iff]
      exact ⟨q, List.mem_of_find?_eq_some hf, by simpa using List.find?_some hf⟩
    | none =>
      simp only [exceptIsOk, Bool.false_eq_true, false_iff]
      intro hex
      obtain ⟨q, hq, hid⟩ := hex
      have := List.find?_eq_none.mp hf q hq
      simp [hid] at this
  · rw [InMemoryPsetRepository.delete]
    by_cases hlt : (r.psets.filter (fun q => !(q.id == id))).length < r.psets.length
    · rw [if_pos hlt]
      simp only [exceptIsOk, true_iff]
      have := (filter_length_lt_iff r.psets (fun q => !(q.id == id))).mp hlt
      obtain ⟨q, hq, hnp⟩ := this
      exact ⟨q, hq, by simpa using hnp⟩
    · rw [if_neg hlt]
      simp only [exceptIsOk, Bool.false_eq_true, false_iff]
      intro hex
      obtain ⟨q, hq, hid⟩ := hex
      exact hlt ((filter_length_lt_iff r.psets (fun q => !(q.id == id))).mpr
        ⟨q, hq, by simp [hid]⟩)

/-! ### Claim C7 -/

/-- Claim C7 (counterexample): with the device's current VIN "ABC123"
(bytes 65 66 67 49 50 51), the MID 0052 frame pushed right after the 0051
ack carries a body of 25 spaces, not the current VIN padded to 25
characters. -/
theorem claim7_counterexample :
    ((serve_mid51 [65, 66, 67, 49, 50, 51] 1).getD 1 []).drop 20 =
      List.replicate 25 32
    ∧ ((serve_mid51 [65, 66, 67, 49, 50, 51] 1).getD 1 []).drop 20 ≠
      vehicleIdBroadcastData [65, 66, 67, 49, 50, 51] := by
  constructor
  · rfl
  · decide

/-- Claim C7 (amended): on MID 0051 the connection sends the 0005
acknowledgment and then immediately a MID 0052 frame whose body is the
empty string padded to exactly 25 characters (25 ASCII spaces), regardless
of the device's current VIN. -/
theorem claim7_mid51 (vin : List Nat) (rev : Nat) :
    serve_mid51 vin rev =
      [serialize_response ⟨5, rev, commandAcceptedData 51⟩,
       serialize_response ⟨52, 1, List.replicate 25 32⟩] := by
  have hempty : vehicleIdBroadcastData [] = List.replicate 25 32 := by rfl
  rw [serve_mid51, hempty]

/-! ### Claim C8 -/

theorem generatedSpindle_id (count rid sid : Nat) :
    (generatedSpindle count rid sid).spindle_id = sid := by
  rw [generatedSpindle]
  split <;> rfl

theorem generatedSpindle_ok (count rid sid : Nat)
    (h : sid ≠ count ∨ ¬ rid % 10 = 0) :
    (generatedSpindle count rid sid).torque_status = 0
    ∧ (generatedSpindle count rid sid).angle_status = 0 := by
  rw [generatedSpindle, if_pos h]
  exact ⟨rfl, rfl⟩

theorem generatedSpindle_nok (count rid sid : Nat) (h1 : sid = count)
    (h2 : rid % 10 = 0) :
    (generatedSpindle count rid sid).torque_status = 1
    ∧ (generatedSpindle count rid sid).angle_status = 0
    ∧ (generatedSpindle count rid sid).torque =
        5000 + ((sid : Int) - 1) * 5 * 10 - 500 := by
  rw [generatedSpindle, if_neg (by simp [h1, h2])]
  exact ⟨rfl, rfl, rfl⟩

/-- Claim C8 (confirmed): for every enabled config with 2 to 16 spindles
and every result id, the generator produces exactly `spindle_count`
results; a result for the last spindle exists; every other spindle is OK;
the last spindle is NOK — torque status 1, angle status 0, torque reduced
by 500 from its per-spindle base — exactly when `result_id` is a multiple
of 10, and OK otherwise; and the aggregate `overall_status` is 0 exactly
when every spindle has both statuses 0. -/
theorem claim8_generation (cfg : MultiSpindleConfig) (result_id pset_id : Nat)
    (now : String) (_hen : cfg.enabled = true) (hlo : 2 ≤ cfg.spindle_count)
    (hhi : cfg.spindle_count ≤ 16) :
    (generate_multi_spindle_results cfg result_id pset_id now).spindle_results.length
        = cfg.spindle_count
    ∧ (∃ r ∈ (generate_multi_spindle_results cfg result_id pset_id now).spindle_results,
        r.spindle_id = cfg.spindle_count)
    ∧ (∀ r ∈ (generate_multi_spindle_results cfg result_id pset_id now).spindle_results,
        r.spindle_id ≠ cfg.spindle_count → r.torque_status = 0 ∧ r.angle_status = 0)
    ∧ (∀ r ∈ (generate_multi_spindle_results cfg result_id pset_id now).spindle_results,
        r.spindle_id = cfg.spindle_count →
          if result_id % 10 = 0 then
            r.torque_status = 1 ∧ r.angle_status = 0 ∧
              r.torque = 5000 + ((cfg.spindle_count : Int) - 1) * 5 * 10 - 500
          else r.torque_status = 0 ∧ r.angle_status = 0)
    ∧ ((generate_multi_spindle_results cfg result_id pset_id now).overall_status = 0 ↔
        ∀ r ∈ (generate_multi_spindle_results cfg result_id pset_id now).spindle_results,
          r.torque_status = 0 ∧ r.angle_status = 0) := by
  have hsr : (generate_multi_spindle_results cfg result_id pset_id now).spindle_results =
      (List.range cfg.spindle_count).map
        (fun k => generatedSpindle cfg.spindle_count result_id (k + 1)) := rfl
  refine ⟨?_, ?_, ?_, ?_, ?_⟩
  · rw [hsr]; simp
  · rw [hsr]
    refine ⟨generatedSpindle cfg.spindle_count result_id (cfg.spindle_count - 1 + 1),
      List.mem_map.mpr ⟨cfg.spindle_count - 1, List.mem_range.mpr (by omega), rfl⟩, ?_⟩
    rw [generatedSpindle_id]
    omega
  · rw [hsr]
    intro r hr hne
    obtain ⟨k, hk, rfl⟩ := List.mem_map.mp hr
    rw [generatedSpindle_id] at hne
    exact generatedSpindle_ok _ _ _ (Or.inl hne)
  · rw [hsr]
    intro r hr heq
    obtain ⟨k, hk, rfl⟩ := List.mem_map.mp hr
    rw [generatedSpindle_id] at heq
    by_cases h10 : result_id % 10 = 0
    · rw [if_pos h10]
      obtain ⟨ha, hb, hc⟩ := generatedSpindle_nok cfg.spindle_count result_id (k + 1) heq h10
      refine ⟨ha, hb, ?_⟩
      rw [hc, ← heq]
    · rw [if_neg h10]
      exact generatedSpindle_ok _ _ _ (Or.inr h10)
  · have hov : (generate_multi_spindle_results cfg result_id pset_id now).overall_status =
        if ((List.range cfg.spindle_count).map
            (fun k => generatedSpindle cfg.spindle_count result_id (k + 1))).all
            SpindleResult.is_ok then 0 else 1 := rfl
    rw [hov, hsr]
    by_cases hall : ((List.range cfg.spindle_count).map
        (fun k => generatedSpindle cfg.spindle_count result_id (k + 1))).all
        SpindleResult.is_ok = true
    · rw [if_pos hall]
      simp only [true_iff]
      intro r hr
      have := List.all_eq_true.mp hall r hr
      simp [SpindleResult.is_ok] at this
      exact this
    · rw [if_neg hall]
      constructor
      · intro h; simp at h
      · intro hforall
        exfalso
        apply hall
        apply List.all_eq_true.mpr
        intro r hr
        have := hforall r hr
        simp [SpindleResult.is_ok, this.1, this.2]

/-- Claim C8 (witness): the generation contract at an enabled two-spindle
config with sync id 100 and result id 10 (a multiple of 10). -/
theorem claim8_generation_witness :
    (generate_multi_spindle_results ⟨true, 2, 100⟩ 10 1 "").spindle_results.length = 2
    ∧ (∃ r ∈ (generate_multi_spindle_results ⟨true, 2, 100⟩ 10 1 "").spindle_results,
        r.spindle_id = 2)
    ∧ (∀ r ∈ (generate_multi_spindle_results ⟨true, 2, 100⟩ 10 1 "").spindle_results,
        r.spindle_id ≠ 2 → r.torque_status = 0 ∧ r.angle_status = 0)
    ∧ (∀ r ∈ (generate_multi_spindle_results ⟨true, 2, 100⟩ 10 1 "").spindle_results,
        r.spindle_id = 2 →
          if 10 % 10 = 0 then
            r.torque_status = 1 ∧ r.angle_status = 0 ∧
              r.torque = 5000 + ((2 : Int) - 1) * 5 * 10 - 500
          else r.torque_status = 0 ∧ r.angle_status = 0)
    ∧ ((generate_multi_spindle_results ⟨true, 2, 100⟩ 10 1 "").overall_status = 0 ↔
        ∀ r ∈ (generate_multi_spindle_results ⟨true, 2, 100⟩ 10 1 "").spindle_results,
          r.torque_status = 0 ∧ r.angle_status = 0) :=
  claim8_generation ⟨true, 2, 100⟩ 10 1 "" rfl (by norm_num) (by norm_num)

/-! ### Claim C9 -/

/-- Claim C9 (counterexample): on a `Subscriptions` value already
subscribed to tightening results, subscribe followed by unsubscribe of that
kind does not return the value to its state before the pair of calls. -/
theorem claim9_counterexample :
    (Subscriptions.subscribe_tightening_result
        ⟨true, false, false, false, false, false, false⟩).unsubscribe_tightening_result
      ≠ ⟨true, false, false, false, false, false, false⟩ := by
  decide

/-- Claim C9 (amended): subscribing twice equals subscribing once,
unsubscribing twice equals unsubscribing once, subscribe-then-unsubscribe
equals a single unsubscribe, and it restores the original value exactly
when the kind was not subscribed beforehand. -/
theorem claim9_idempotence (s : Subscriptions) (k : SubscriptionKind) :
    subscribeKind k (subscribeKind k s) = subscribeKind k s
    ∧ unsubscribeKind k (unsubscribeKind k s) = unsubscribeKind k s
    ∧ unsubscribeKind k (subscribeKind k s) = unsubscribeKind k s
    ∧ (isSubscribedKind k s = false → unsubscribeKind k (subscribeKind k s) = s) := by
  obtain ⟨a, b, c, d, e, f, g⟩ := s
  cases k <;>
    refine ⟨rfl, rfl, rfl, fun h => ?_⟩ <;>
    simp_all [subscribeKind, unsubscribeKind, isSubscribedKind,
      Subscriptions.subscribe_tightening_result,
      Subscriptions.unsubscribe_tightening_result,
      Subscriptions.subscribe_pset_selection,
      Subscriptions.unsubscribe_pset_selection,
      Subscriptions.subscribe_vehicle_id, Subscriptions.unsubscribe_vehicle_id,
      Subscriptions.subscribe_multi_spindle_status,
      Subscriptions.unsubscribe_multi_spindle_status,
      Subscriptions.subscribe_multi_spindle_result,
      Subscriptions.unsubscribe_multi_spindle_result]

/-- Claim C9 (witness): the amended laws on a fresh (all-false)
subscription set for the vehicle id kind. -/
theorem claim9_idempotence_witness :
    isSubscribedKind .vehicle_id Subscriptions.new = false
    ∧ unsubscribeKind .vehicle_id (subscribeKind .vehicle_id Subscriptions.new) =
        Subscriptions.new :=
  ⟨rfl, (claim9_idempotence Subscriptions.new .vehicle_id).2.2.2 rfl⟩

/-! ### Claim C10 -/

/-- Claim C10 (confirmed): `BatchSizeHandler::handle` (MID 0019) returns a
MID 0005 response and enables batch mode at the parsed size for every
message whose body is empty (defaulting to size 1) or at least 3 bytes
long (the size being parsed from bytes 3.., defaulting to 1 when the parse
fails); for a non-empty body of length 1 or 2 the slice
`message.data[0..=2]` is out of bounds and the function produces no
response (the Rust code panics, modelled as `none`). -/
theorem claim10_batch_size (msg : Message) (t : TighteningTracker) :
    (msg.data = [] → batchSizeHandle msg t =
      some (⟨5, msg.revision, commandAcceptedData 19⟩, t.enable_batch 1))
    ∧ (3 ≤ msg.data.length → batchSizeHandle msg t =
      some (⟨5, msg.revision, commandAcceptedData 19⟩,
        t.enable_batch ((lossyTrimParseU32 (msg.data.drop 3)).getD 1)))
    ∧ (msg.data.length = 1 ∨ msg.data.length = 2 → batchSizeHandle msg t = none) := by
  refine ⟨?_, ?_, ?_⟩
  · intro h
    have h49 : (lossyTrimParseU32 [49]).getD 1 = 1 := by rfl
    rw [batchSizeHandle, if_pos (by simp [h]), h49]
  · intro h
    have hne : ¬ msg.data.isEmpty = true := by
      simp only [List.isEmpty_iff]
      intro hx
      rw [hx] at h
      simp at h
    rw [batchSizeHandle, if_neg hne, if_neg (by omega)]
  · intro h
    have hne : ¬ msg.data.isEmpty = true := by
      simp only [List.isEmpty_iff]
      intro hx
      rw [hx] at h
      simp at h
    rw [batchSizeHandle, if_neg hne, if_pos (by omega)]

/-- Claim C10 (witness): the handler at an empty body, at the 7-byte body
"0030010" (pset 003, size 0010 = 10), and at the 1-byte body "A". -/
theorem claim10_batch_size_witness :
    batchSizeHandle ⟨20, 19, 1, []⟩ TighteningTracker.new =
      some (⟨5, 1, commandAcceptedData 19⟩, TighteningTracker.new.enable_batch 1)
    ∧ batchSizeHandle ⟨27, 19, 1, [48, 48, 51, 48, 48, 49, 48]⟩ TighteningTracker.new =
      some (⟨5, 1, commandAcceptedData 19⟩, TighteningTracker.new.enable_batch
        ((lossyTrimParseU32 ([48, 48, 51, 48, 48, 49, 48].drop 3)).getD 1))
    ∧ (lossyTrimParseU32 ([48, 48, 51, 48, 48, 49, 48].drop 3)).getD 1 = 10
    ∧ batchSizeHandle ⟨21, 19, 1, [65]⟩ TighteningTracker.new = none :=
  ⟨(claim10_batch_size _ _).1 rfl,
   (claim10_batch_size _ _).2.1 (by decide),
   by rfl,
   (claim10_batch_size _ _).2.2 (Or.inl rfl)⟩
